import Mathlib

/-!
# Verification of `dock_prep/subprocess_handler.py`

A shallow embedding of the subprocess-orchestration module of the
pdbqt-converter repository.  The module shells out to four external tools
(MGLTools, OpenBabel, MolProbity, PDB2PQR); its observable state is the
filesystem (which paths exist) and the process working directory.  We model
that state explicitly and model each external process invocation through an
oracle (`Exec`) mapping the command string, the timeout handed to
`subprocess.run`, and the current world to an exit status plus the new set
of existing files.  Python exceptions become `Except Err`.

Floats are not modelled: the pH value threaded into the command strings is
represented by its rendered decimal text (the Python code only ever
interpolates `str(pH_value)` into an f-string).
-/

namespace DockPrep

/-- Python-style character lowercase (ASCII, as `str.lower` on the
extensions appearing here). -/
def lowerStr (s : String) : String := String.mk (s.data.map Char.toLower)

/-- `isPrefixList pat s` is true when `pat` is a prefix of `s`. -/
def isPrefixList : List Char → List Char → Bool
  | [], _ => true
  | _ :: _, [] => false
  | a :: as, b :: bs => a = b && isPrefixList as bs

/-- `containsSub s pat` is true when `pat` occurs as a contiguous substring
of `s` (Python `pat in s`). -/
def containsSub : List Char → List Char → Bool
  | [], pat => isPrefixList pat []
  | c :: rest, pat => isPrefixList pat (c :: rest) || containsSub rest pat

/-- String-level substring test. -/
def strContains (s pat : String) : Bool := containsSub s.data pat.data

/-- Fuel-driven replace-all, the semantics of Python `str.replace` for a
non-empty pattern: scan left to right, replace every non-overlapping
occurrence. -/
def replaceFrom : Nat → List Char → List Char → List Char → List Char
  | 0, s, _, _ => s
  | _ + 1, [], _, _ => []
  | fuel + 1, c :: rest, pat, rep =>
      if isPrefixList pat (c :: rest) then
        rep ++ replaceFrom fuel ((c :: rest).drop pat.length) pat rep
      else
        c :: replaceFrom fuel rest pat rep

/-- Python `s.replace(pat, rep)` (pattern non-empty in all uses here). -/
def pyReplace (s pat rep : String) : String :=
  String.mk (replaceFrom s.toList.length s.toList pat.toList rep.toList)

/-- Characters of a path after the last `/` (the whole path when there is
no `/`): `os.path.basename`. -/
def basenameList (p : List Char) : List Char :=
  (p.reverse.takeWhile (· ≠ '/')).reverse

/-- `os.path.basename`. -/
def pyBasename (p : String) : String := String.mk (basenameList p.toList)

/-- `os.path.dirname`: everything before the last `/`; `""` when there is
no `/`; `"/"` for a file directly under the root. -/
def pyDirname (p : String) : String :=
  if p.toList.contains '/' then
    let head := (p.toList.reverse.dropWhile (· ≠ '/')).drop 1 |>.reverse
    if head = [] then "/" else String.mk head
  else ""

/-- Whether a path is absolute (`os.path.isabs` on POSIX). -/
def pyIsAbs (p : String) : Bool := isPrefixList ['/'] p.toList

/-- `os.path.abspath` relative to a current working directory: absolute
paths are kept, relative ones are joined onto the cwd. -/
def absPath (cwd p : String) : String :=
  if pyIsAbs p then p
  else if cwd = "/" then "/" ++ p else cwd ++ "/" ++ p

/-- `os.path.join` for the two-component joins used by the module. -/
def pyJoin (a b : String) : String :=
  if pyIsAbs b then b
  else if a = "" then b
  else if a.toList.getLast? = some '/' then a ++ b
  else a ++ "/" ++ b

/-- The extension part of `os.path.splitext(p)[1]`: the last-dot suffix of
the basename, where the leading dots of the basename never start an
extension. -/
def splitextExt (p : String) : String :=
  let b := basenameList p.toList
  let lead := b.takeWhile (· = '.')
  let rest := b.drop lead.length
  if rest.contains '.' then
    String.mk ('.' :: (rest.reverse.takeWhile (· ≠ '.')).reverse)
  else ""

/-- `os.path.splitext(p)[1].lower().lstrip('.')`, the extension-extraction
idiom used throughout the module. -/
def extNoDot (p : String) : String :=
  String.mk ((lowerStr (splitextExt p)).toList.dropWhile (· = '.'))

/-- The keys the module reads from the JSON configuration file.  The code
indexes the parsed dictionary by these names; a configuration whose file
exists and parses is modelled as providing all of them. -/
structure EnvVars where
  MGL_BIN : String
  MGL_PACKAGES : String
  MGL_ENV_NAME : String
  MOLPROBITY_BIN : String
deriving DecidableEq, Repr

/-- The observable state threaded through an invocation: the set of paths
that exist on the filesystem and the process working directory. -/
structure World where
  files : List String
  cwd : String
deriving DecidableEq, Repr

/-- Python exceptions raised by the module. -/
inductive Err where
  /-- `FileNotFoundError` from `_check_if_file_exists`. -/
  | inputFileNotFound
  /-- `FileNotFoundError` from `get_env_vars` (missing or unparseable
  configuration file). -/
  | envFileNotFound
  /-- `subprocess.CalledProcessError` (non-zero exit status under
  `check=True`). -/
  | calledProcessError
  /-- `subprocess.TimeoutExpired`. -/
  | timeoutExpired
  /-- `ValueError` from `run_program` when no command was constructed. -/
  | valueError
  /-- Any other exception (e.g. `TypeError` on a `None` config path). -/
  | otherExn
deriving DecidableEq, Repr

/-- Exit disposition of one external process run. -/
inductive ProcStatus where
  | exitZero
  | exitNonzero
  | timedOut
deriving DecidableEq, Repr

/-- Oracle for `subprocess.run`: from the command string, the timeout
passed (none when the call sets no timeout), and the world at spawn time,
produce the exit disposition and the files existing afterwards.  A child
process cannot change the parent's working directory. -/
def Exec : Type := String → Option Nat → World → ProcStatus × List String

/-- `_check_if_file_exists` (lines 15-28): raise `FileNotFoundError` when
the path does not exist, return `True` otherwise.  The directory listing it
prints is diagnostics only. -/
def _check_if_file_exists (w : World) (input_path : String) : Except Err Bool :=
  if w.files.contains input_path then Except.ok true
  else Except.error Err.inputFileNotFound

/-- `get_env_vars` (lines 51-59): raise when the configuration file is
absent, otherwise return the parsed mapping.  `envOf` is the filesystem's
view of parseable configuration files; a `None` config path (Python
default) raises a `TypeError` at `os.path.exists`. -/
def get_env_vars (envOf : String → Option EnvVars) (config_file : Option String) :
    Except Err EnvVars :=
  match config_file with
  | none => Except.error Err.otherExn
  | some p =>
    match envOf p with
    | some e => Except.ok e
    | none => Except.error Err.envFileNotFound

/-- The source-order entry list of the OpenBabel `format_map` dict literal
(line 191), duplicate key included exactly as written. -/
def format_map_entries : List (String × String) :=
  [("pdb", "pdb"), ("pqr", "pqr"), ("mol", "mol"), ("mol2", "mol2"),
   ("sdf", "sdf"), ("xyz", "xyz"), ("pdbqt", "pdbqt"),
   ("cif", "mmcif"), ("cif", "cif")]

/-- Python dict-literal construction followed by `.get`: later entries for
the same key overwrite earlier ones, absent keys give `None`. -/
def dictGet (es : List (String × String)) (k : String) : Option String :=
  ((es.filter (fun e => e.1 = k)).getLast?).map Prod.snd

/-- Python f-string rendering of an `Option` format code: `None` prints as
the four characters `None`. -/
def fmtOpt : Option String → String
  | some s => s
  | none => "None"

/-- `construct_shell_command` (lines 157-207).  Returns the command string,
`none` for an unsupported tool (Python falls off the function and returns
`None`), or the exception raised while resolving configuration or checking
tool binaries.  `w` supplies file existence for `_check_if_file_exists`. -/
def construct_shell_command (envOf : String → Option EnvVars) (w : World)
    (tool_name abs_input_path abs_output_path pH_value : String)
    (config_file : Option String) : Except Err (Option String) :=
  let input_ext := extNoDot abs_input_path
  if tool_name = "MGLTools" then
    match get_env_vars envOf config_file with
    | Except.error e => Except.error e
    | Except.ok env_vars =>
      let pythonsh := pyJoin env_vars.MGL_BIN "pythonsh"
      let prepare_receptor_script :=
        pyJoin (pyJoin (pyJoin env_vars.MGL_PACKAGES "AutoDockTools") "Utilities24")
          "prepare_receptor4.py"
      match _check_if_file_exists w pythonsh with
      | Except.error e => Except.error e
      | Except.ok _ =>
        match _check_if_file_exists w prepare_receptor_script with
        | Except.error e => Except.error e
        | Except.ok _ =>
          let input_filename :=
            if pyIsAbs abs_input_path then pyBasename abs_input_path else abs_input_path
          let output_filename :=
            if pyIsAbs abs_output_path then pyBasename abs_output_path else abs_output_path
          if input_ext = "pqr" then
            Except.ok (some ("conda run -n " ++ env_vars.MGL_ENV_NAME ++
              " --no-capture-output bash -c \x27export PYTHONPATH=" ++
              env_vars.MGL_PACKAGES ++ ":$PYTHONPATH && " ++ pythonsh ++ " " ++
              prepare_receptor_script ++ " -r " ++ input_filename ++ " -o " ++
              output_filename ++ " -A checkhydrogens -C -U nphs_lps\x27"))
          else
            Except.ok (some ("conda run -n " ++ env_vars.MGL_ENV_NAME ++
              " --no-capture-output bash -c \x27export PYTHONPATH=" ++
              env_vars.MGL_PACKAGES ++ ":$PYTHONPATH && " ++ pythonsh ++ " " ++
              prepare_receptor_script ++ " -r " ++ input_filename ++ " -o " ++
              output_filename ++ " -A checkhydrogens\x27"))
  else if tool_name = "OpenBabel" then
    let input_format := dictGet format_map_entries input_ext
    let output_format := dictGet format_map_entries (extNoDot abs_output_path)
    Except.ok (some ("obabel -i" ++ fmtOpt input_format ++ " " ++ abs_input_path ++
      " -o" ++ fmtOpt output_format ++ " -O " ++ abs_output_path))
  else if tool_name = "MolProbity" then
    match get_env_vars envOf config_file with
    | Except.error e => Except.error e
    | Except.ok env_vars =>
      let reduce := pyJoin env_vars.MOLPROBITY_BIN "reduce"
      let probe := pyJoin env_vars.MOLPROBITY_BIN "probe"
      match _check_if_file_exists w reduce with
      | Except.error e => Except.error e
      | Except.ok _ =>
        match _check_if_file_exists w probe with
        | Except.error e => Except.error e
        | Except.ok _ =>
          Except.ok (some (reduce ++ " -FLIP " ++ abs_input_path ++ " > " ++ abs_output_path))
  else if tool_name = "PDB2PQR" then
    Except.ok (some ("pdb2pqr30 --ff AMBER --keep-chain --titration-state-method propka --with-ph "
      ++ pH_value ++ " " ++ abs_input_path ++ " " ++ abs_output_path))
  else
    Except.ok none

/-- Timeout resolution of `_run_subprocess_command` (lines 76-82): the
caller's value when given, otherwise 1800 seconds for PDB2PQR and 300 for
every other tool. -/
def resolve_timeout (tool_name : String) (timeout : Option Nat) : Nat :=
  match timeout with
  | some t => t
  | none => if tool_name = "PDB2PQR" then 1800 else 300

/-- The `subprocess.run(..., check=True)` call of lines 110-123 together
with the output-file check of lines 130-137 and the restore of the working
directory in the `finally` block: run the command, downgrade a non-zero
exit to success for MolProbity when the output file exists, re-raise it
otherwise, re-raise a timeout, and on a zero exit report whether the output
file was created.  `original_cwd` is always restored. -/
def runExecCore (ex : Exec) (tool_name command abs_output_path : String)
    (timeout : Nat) (original_cwd : String) (w : World) : Except Err Bool × World :=
  let r := ex command (some timeout) w
  let w' : World := { files := r.2, cwd := original_cwd }
  match r.1 with
  | ProcStatus.exitZero =>
      (if r.2.contains abs_output_path then Except.ok true else Except.ok false, w')
  | ProcStatus.exitNonzero =>
      if tool_name = "MolProbity" && r.2.contains abs_output_path then
        (Except.ok true, w')
      else (Except.error Err.calledProcessError, w')
  | ProcStatus.timedOut => (Except.error Err.timeoutExpired, w')

/-- `_run_subprocess_command` (lines 61-155).  For MGLTools it changes the
working directory to the input's directory (when non-empty) and rebuilds
the command from bare filenames with the fixed pH 7.4 before running; every
exit path restores the original working directory (the `finally` block).
The rebuilt MGLTools command is always a string, so the `.ok none` arm is
unreachable; it is kept as the `TypeError` Python would raise on running
`None`. -/
def _run_subprocess_command (ex : Exec) (envOf : String → Option EnvVars)
    (tool_name command abs_input_path abs_output_path : String)
    (config_file : Option String) (timeout? : Option Nat) (w : World) :
    Except Err Bool × World :=
  let original_cwd := w.cwd
  let timeout := resolve_timeout tool_name timeout?
  if tool_name = "MGLTools" then
    let input_dir := pyDirname abs_input_path
    let w1 : World := if input_dir ≠ "" then { w with cwd := input_dir } else w
    match construct_shell_command envOf w1 tool_name (pyBasename abs_input_path)
        (pyBasename abs_output_path) "7.4" config_file with
    | Except.error e => (Except.error e, { w1 with cwd := original_cwd })
    | Except.ok none => (Except.error Err.otherExn, { w1 with cwd := original_cwd })
    | Except.ok (some command2) =>
        runExecCore ex tool_name command2 abs_output_path timeout original_cwd w1
  else
    runExecCore ex tool_name command abs_output_path timeout original_cwd w

/-- Lines 259-280 of `run_program`: build the command for the effective
input path, raise `ValueError` when none was constructed, execute, and on a
normal return remove the temporary PDB file when the MGLTools/pqr path
created one.  `input_ext` and `temp_pdb_path` come from the original input
path (computed before any pre-conversion); an exception from execution
propagates without reaching the cleanup. -/
def run_program_main (ex : Exec) (envOf : String → Option EnvVars)
    (tool_name abs_input_path abs_output_path input_ext temp_pdb_path pH_value : String)
    (config_file : Option String) (timeout? : Option Nat) (w : World) :
    Except Err Bool × World :=
  match construct_shell_command envOf w tool_name abs_input_path abs_output_path
      pH_value config_file with
  | Except.error e => (Except.error e, w)
  | Except.ok none => (Except.error Err.valueError, w)
  | Except.ok (some command) =>
    if command = "" then (Except.error Err.valueError, w)
    else
      match _run_subprocess_command ex envOf tool_name command abs_input_path
          abs_output_path config_file timeout? w with
      | (Except.ok success, w2) =>
          if tool_name = "MGLTools" && input_ext = "pqr"
              && w2.files.contains temp_pdb_path then
            (Except.ok success, { w2 with files := w2.files.filter (· ≠ temp_pdb_path) })
          else (Except.ok success, w2)
      | (Except.error e, w2) => (Except.error e, w2)

/-- `run_program` (lines 209-280): resolve absolute paths, require the
input to exist, run the MGLTools/pqr pre-conversion special case (a
conversion failure is caught and logged, the original path is kept), then
hand over to the main phase (`run_program_main`). -/
def run_program (ex : Exec) (envOf : String → Option EnvVars)
    (tool_name input_path output_path pH_value : String)
    (config_file : Option String) (timeout? : Option Nat) (w : World) :
    Except Err Bool × World :=
  let abs_input_path := absPath w.cwd input_path
  let abs_output_path := absPath w.cwd output_path
  match _check_if_file_exists w abs_input_path with
  | Except.error e => (Except.error e, w)
  | Except.ok _ =>
    let input_ext := extNoDot abs_input_path
    let temp_pdb_path := pyReplace abs_input_path ".pqr" "_temp.pdb"
    if tool_name = "MGLTools" && input_ext = "pqr" then
      let obabel_command :=
        "obabel -ipqr " ++ abs_input_path ++ " -opdb -O " ++ temp_pdb_path
      let r := ex obabel_command none w
      let w1 : World := { w with files := r.2 }
      match r.1 with
      | ProcStatus.exitZero =>
          if r.2.contains temp_pdb_path then
            run_program_main ex envOf tool_name temp_pdb_path abs_output_path
              input_ext temp_pdb_path pH_value config_file timeout? w1
          else
            run_program_main ex envOf tool_name abs_input_path abs_output_path
              input_ext temp_pdb_path pH_value config_file timeout? w1
      | _ =>
          run_program_main ex envOf tool_name abs_input_path abs_output_path
            input_ext temp_pdb_path pH_value config_file timeout? w1
    else
      run_program_main ex envOf tool_name abs_input_path abs_output_path
        input_ext temp_pdb_path pH_value config_file timeout? w

/-! ## Concrete scenarios used by the closed theorems and witnesses -/

/-- A configuration giving MGLTools and MolProbity installation paths. -/
def evA : EnvVars :=
  { MGL_BIN := "/mgl", MGL_PACKAGES := "/mgl/pkgs", MGL_ENV_NAME := "mgl",
    MOLPROBITY_BIN := "/mp" }

/-- A configuration-file view where `/cfg.json` parses to `evA`. -/
def envOfA : String → Option EnvVars :=
  fun p => if p = "/cfg.json" then some evA else none

/-- A filesystem holding a PQR input and both MGLTools scripts. -/
def wPqr : World :=
  { files := ["/d/in.pqr", "/mgl/pythonsh",
              "/mgl/pkgs/AutoDockTools/Utilities24/prepare_receptor4.py"],
    cwd := "/" }

/-- Oracle: the PQR-to-PDB pre-conversion succeeds and creates the
temporary PDB; every other command (the main MGLTools invocation) exits
non-zero without creating anything. -/
def exMainFails : Exec := fun cmd _ w =>
  if cmd = "obabel -ipqr /d/in.pqr -opdb -O /d/in_temp.pdb" then
    (ProcStatus.exitZero, "/d/in_temp.pdb" :: w.files)
  else (ProcStatus.exitNonzero, w.files)

/-- Oracle: the pre-conversion exits non-zero; every other command
succeeds and creates the output file. -/
def exPreFails : Exec := fun cmd _ w =>
  if cmd = "obabel -ipqr /d/in.pqr -opdb -O /d/in_temp.pdb" then
    (ProcStatus.exitNonzero, w.files)
  else (ProcStatus.exitZero, "/d/out.pdbqt" :: w.files)

/-- Oracle: pre-conversion and main invocation both succeed. -/
def exAllOk : Exec := fun cmd _ w =>
  if cmd = "obabel -ipqr /d/in.pqr -opdb -O /d/in_temp.pdb" then
    (ProcStatus.exitZero, "/d/in_temp.pdb" :: w.files)
  else (ProcStatus.exitZero, "/d/out.pdbqt" :: w.files)

/-- Recording oracle: every spawned command is recorded into the file set
(so a theorem can observe which commands were executed) and the expected
output file `/w/out.pdb` is created. -/
def exRecord : Exec := fun cmd _ w =>
  (ProcStatus.exitZero, "/w/out.pdb" :: cmd :: w.files)

/-- A filesystem holding only an input with unrecognized extension. -/
def wFoo : World := { files := ["/w/in.foo"], cwd := "/" }

/-! ## Helper lemmas -/

theorem isPrefixList_append (pat rest : List Char) :
    isPrefixList pat (pat ++ rest) = true := by
  induction pat with
  | nil => rfl
  | cons a as ih => simp [isPrefixList, ih]

theorem containsSub_of_isPrefixList (s pat : List Char)
    (h : isPrefixList pat s = true) : containsSub s pat = true := by
  cases s with
  | nil => simpa [containsSub] using h
  | cons c rest => simp [containsSub, h]

theorem containsSub_append_left (xs ys pat : List Char)
    (h : containsSub ys pat = true) : containsSub (xs ++ ys) pat = true := by
  induction xs with
  | nil => exact h
  | cons c cs ih => simp [containsSub, ih]

/-- A pattern occurs in any string of the shape `a ++ (pat ++ b)`. -/
theorem strContains_middle (a pat b : String) :
    strContains (a ++ (pat ++ b)) pat = true := by
  unfold strContains
  have h : (a ++ (pat ++ b)).data = a.data ++ (pat.data ++ b.data) := by
    simp [String.data_append]
  rw [h]
  exact containsSub_append_left _ _ _
    (containsSub_of_isPrefixList _ _ (isPrefixList_append _ _))

/-- Removing a string from a file list removes it from membership. -/
theorem contains_filter_ne (l : List String) (a : String) :
    (l.filter (fun x => x ≠ a)).contains a = false := by
  induction l with
  | nil => rfl
  | cons x xs ih =>
    by_cases hx : x = a
    · simp [List.filter, hx, ih]
    · simp [List.filter, hx, List.contains_cons, ih, Ne.symm hx]

/-! ## Claim theorems -/

/-- C8: when the caller supplies no timeout, the subprocess timeout is 1800
seconds for PDB2PQR and 300 seconds for every other tool; a caller-supplied
timeout is used unchanged; and the executor hands exactly this resolved
value to `subprocess.run` (observed through a recording oracle that only
produces the sentinel file list when it receives that value). -/
theorem C8_timeout_resolution (tool_name : String) (t : Nat)
    (envOf : String → Option EnvVars) (command absIn absOut : String)
    (cfg : Option String) (t? : Option Nat) (w : World) :
    resolve_timeout tool_name none = (if tool_name = "PDB2PQR" then 1800 else 300)
    ∧ resolve_timeout tool_name (some t) = t
    ∧ (tool_name ≠ "MGLTools" →
        (_run_subprocess_command
            (fun _ t0 _ => (ProcStatus.exitZero,
              if t0 = some (resolve_timeout tool_name t?) then ["timeout-recorded"] else []))
            envOf tool_name command absIn absOut cfg t? w).2.files
          = ["timeout-recorded"]) := by
  refine ⟨rfl, rfl, fun hm => ?_⟩
  unfold _run_subprocess_command runExecCore
  rw [if_neg hm]
  simp

/-- C8 witness: for OpenBabel with no explicit timeout the executor passes
300 seconds to the subprocess call. -/
theorem C8_timeout_resolution_witness :
    resolve_timeout "OpenBabel" none = (if ("OpenBabel" : String) = "PDB2PQR" then 1800 else 300)
    ∧ resolve_timeout "OpenBabel" (some 7) = 7
    ∧ (_run_subprocess_command
        (fun _ t0 _ => (ProcStatus.exitZero,
          if t0 = some (resolve_timeout "OpenBabel" none) then ["timeout-recorded"] else []))
        envOfA "OpenBabel" "cmd" "/i" "/o" none none wFoo).2.files = ["timeout-recorded"] := by
  obtain ⟨a, b, c⟩ := C8_timeout_resolution "OpenBabel" 7 envOfA "cmd" "/i" "/o" none none wFoo
  exact ⟨a, b, c (by decide)⟩

/-- C9: the PDB2PQR command contains the caller-supplied pH after
`--with-ph` together with the fixed `--ff AMBER` and
`--titration-state-method propka` flags, and the concrete example
`("PDB2PQR", "a.pdb", "a.pqr", 6.5)` yields a command including
`--with-ph 6.5`. -/
theorem C9_pdb2pqr_command (envOf : String → Option EnvVars) (w : World)
    (inp outp pH : String) (cfg : Option String) :
    construct_shell_command envOf w "PDB2PQR" inp outp pH cfg
      = Except.ok (some ("pdb2pqr30 --ff AMBER --keep-chain --titration-state-method propka --with-ph "
          ++ pH ++ " " ++ inp ++ " " ++ outp))
    ∧ strContains ("pdb2pqr30 --ff AMBER --keep-chain --titration-state-method propka --with-ph "
          ++ pH ++ " " ++ inp ++ " " ++ outp) ("--with-ph " ++ pH) = true
    ∧ strContains ("pdb2pqr30 --ff AMBER --keep-chain --titration-state-method propka --with-ph "
          ++ pH ++ " " ++ inp ++ " " ++ outp) "--ff AMBER" = true
    ∧ strContains ("pdb2pqr30 --ff AMBER --keep-chain --titration-state-method propka --with-ph "
          ++ pH ++ " " ++ inp ++ " " ++ outp) "--titration-state-method propka" = true
    ∧ construct_shell_command envOf w "PDB2PQR" "a.pdb" "a.pqr" "6.5" cfg
        = Except.ok (some "pdb2pqr30 --ff AMBER --keep-chain --titration-state-method propka --with-ph 6.5 a.pdb a.pqr")
    ∧ strContains "pdb2pqr30 --ff AMBER --keep-chain --titration-state-method propka --with-ph 6.5 a.pdb a.pqr"
        "--with-ph 6.5" = true := by
  refine ⟨rfl, ?_, ?_, ?_, rfl, by decide⟩
  · have e : ("pdb2pqr30 --ff AMBER --keep-chain --titration-state-method propka --with-ph "
        ++ pH ++ " " ++ inp ++ " " ++ outp)
        = "pdb2pqr30 --ff AMBER --keep-chain --titration-state-method propka "
          ++ (("--with-ph " ++ pH) ++ (" " ++ inp ++ " " ++ outp)) := by
      apply String.ext
      simp only [String.data_append, List.append_assoc]
      rfl
    rw [e]
    exact strContains_middle _ _ _
  · have e : ("pdb2pqr30 --ff AMBER --keep-chain --titration-state-method propka --with-ph "
        ++ pH ++ " " ++ inp ++ " " ++ outp)
        = "pdb2pqr30 "
          ++ ("--ff AMBER" ++ (" --keep-chain --titration-state-method propka --with-ph "
              ++ pH ++ " " ++ inp ++ " " ++ outp)) := by
      apply String.ext
      simp only [String.data_append, List.append_assoc]
      rfl
    rw [e]
    exact strContains_middle _ _ _
  · have e : ("pdb2pqr30 --ff AMBER --keep-chain --titration-state-method propka --with-ph "
        ++ pH ++ " " ++ inp ++ " " ++ outp)
        = "pdb2pqr30 --ff AMBER --keep-chain "
          ++ ("--titration-state-method propka" ++ (" --with-ph "
              ++ pH ++ " " ++ inp ++ " " ++ outp)) := by
      apply String.ext
      simp only [String.data_append, List.append_assoc]
      rfl
    rw [e]
    exact strContains_middle _ _ _

/-- C2 counterexample: for a `cif` input the OpenBabel command carries the
format code `cif`, not `mmcif` — the duplicate `cif` key of the dict
literal makes the later entry win. -/
theorem C2_counterexample :
    construct_shell_command (fun _ => none) { files := [], cwd := "/" } "OpenBabel"
        "in.cif" "out.pdb" "7.4" none
      = Except.ok (some "obabel -icif in.cif -opdb -O out.pdb")
    ∧ strContains "obabel -icif in.cif -opdb -O out.pdb" "mmcif" = false := by
  exact ⟨rfl, rfl⟩

/-- C2 (amended): for every OpenBabel call, whichever of the two paths has
extension `cif` gets the format code `cif` substituted into the command for
that path — whatever the other path's extension resolves to — because in
the dict literal the later duplicate entry `cif → cif` overwrites
`cif → mmcif`. -/
theorem C2_amended_cif_maps_to_cif (envOf : String → Option EnvVars) (w : World)
    (inp outp pH : String) (cfg : Option String) :
    (extNoDot inp = "cif" →
      construct_shell_command envOf w "OpenBabel" inp outp pH cfg
        = Except.ok (some ("obabel -icif " ++ inp ++ " -o"
            ++ fmtOpt (dictGet format_map_entries (extNoDot outp)) ++ " -O " ++ outp)))
    ∧ (extNoDot outp = "cif" →
      construct_shell_command envOf w "OpenBabel" inp outp pH cfg
        = Except.ok (some ("obabel -i" ++ fmtOpt (dictGet format_map_entries (extNoDot inp))
            ++ " " ++ inp ++ " -ocif -O " ++ outp)))
    ∧ dictGet format_map_entries "cif" = some "cif" := by
  have h0 : construct_shell_command envOf w "OpenBabel" inp outp pH cfg
      = Except.ok (some ("obabel -i" ++ fmtOpt (dictGet format_map_entries (extNoDot inp))
          ++ " " ++ inp ++ " -o" ++ fmtOpt (dictGet format_map_entries (extNoDot outp))
          ++ " -O " ++ outp)) := rfl
  have h1 : fmtOpt (dictGet format_map_entries "cif") = "cif" := rfl
  refine ⟨fun hin => ?_, fun hout => ?_, rfl⟩
  · rw [h0, hin, h1]
    have e : ("obabel -i" ++ "cif" ++ " " ++ inp ++ " -o"
          ++ fmtOpt (dictGet format_map_entries (extNoDot outp)) ++ " -O " ++ outp)
        = ("obabel -icif " ++ inp ++ " -o"
          ++ fmtOpt (dictGet format_map_entries (extNoDot outp)) ++ " -O " ++ outp) := by
      apply String.ext
      simp only [String.data_append, List.append_assoc]
      rfl
    rw [e]
  · rw [h0, hout, h1]
    have e : ("obabel -i" ++ fmtOpt (dictGet format_map_entries (extNoDot inp))
          ++ " " ++ inp ++ " -o" ++ "cif" ++ " -O " ++ outp)
        = ("obabel -i" ++ fmtOpt (dictGet format_map_entries (extNoDot inp))
          ++ " " ++ inp ++ " -ocif -O " ++ outp) := by
      apply String.ext
      simp only [String.data_append, List.append_assoc]
      rfl
    rw [e]

/-- C2 witness: both directions of the amended statement — a `cif` input
with a `pdb` output, and an `xyz` input with a `cif` output. -/
theorem C2_amended_witness :
    (extNoDot "in.cif" = "cif"
      ∧ construct_shell_command (fun _ => none) { files := [], cwd := "/" } "OpenBabel"
          "in.cif" "out.pdb" "7.4" none
        = Except.ok (some "obabel -icif in.cif -opdb -O out.pdb"))
    ∧ (extNoDot "out.cif" = "cif"
      ∧ construct_shell_command (fun _ => none) { files := [], cwd := "/" } "OpenBabel"
          "in.xyz" "out.cif" "7.4" none
        = Except.ok (some "obabel -ixyz in.xyz -ocif -O out.cif")) :=
  ⟨⟨rfl, (C2_amended_cif_maps_to_cif (fun _ => none) { files := [], cwd := "/" }
      "in.cif" "out.pdb" "7.4" none).1 rfl⟩,
   ⟨rfl, (C2_amended_cif_maps_to_cif (fun _ => none) { files := [], cwd := "/" }
      "in.xyz" "out.cif" "7.4" none).2.1 rfl⟩⟩

/-- C3: with an input extension outside the lookup table the code does not
fail before invocation; it interpolates the absent format code as the text
`None` into the command and spawns the process (the recording oracle shows
the executed command), and the call even reports success. -/
theorem C3_unrecognized_format_spawned :
    (run_program exRecord (fun _ => none) "OpenBabel" "/w/in.foo" "/w/out.pdb"
        "7.4" none none wFoo).1 = Except.ok true
    ∧ (run_program exRecord (fun _ => none) "OpenBabel" "/w/in.foo" "/w/out.pdb"
        "7.4" none none wFoo).2.files.contains
        "obabel -iNone /w/in.foo -opdb -O /w/out.pdb" = true := by
  exact ⟨rfl, rfl⟩

/-- C6: when the input path does not exist, `run_program` raises the
file-not-found error immediately and the result is the same for every
process oracle, so no external process is spawned. -/
theorem C6_missing_input_fails_fast (ex : Exec) (envOf : String → Option EnvVars)
    (tool_name input_path output_path pH_value : String) (cfg : Option String)
    (t? : Option Nat) (w : World)
    (h : w.files.contains (absPath w.cwd input_path) = false) :
    run_program ex envOf tool_name input_path output_path pH_value cfg t? w
      = (Except.error Err.inputFileNotFound, w) := by
  have h' : absPath w.cwd input_path ∉ w.files := by simpa using h
  simp [run_program, _check_if_file_exists, h']

/-- C6 witness: MGLTools on a nonexistent input path. -/
theorem C6_missing_input_witness :
    wFoo.files.contains (absPath wFoo.cwd "/nope/missing.pdb") = false
    ∧ run_program exRecord envOfA "MGLTools" "/nope/missing.pdb" "/n/out.pdbqt"
        "7.4" (some "/cfg.json") none wFoo
      = (Except.error Err.inputFileNotFound, wFoo) :=
  ⟨by decide, C6_missing_input_fails_fast exRecord envOfA "MGLTools" "/nope/missing.pdb"
    "/n/out.pdbqt" "7.4" (some "/cfg.json") none wFoo (by decide)⟩

/-- C7: a tool name outside {MGLTools, OpenBabel, MolProbity, PDB2PQR}
makes `construct_shell_command` return no command, and `run_program` raises
the unconstructed-command `ValueError` with the world unchanged, for every
process oracle (so no process is spawned). -/
theorem C7_unsupported_tool (ex : Exec) (envOf : String → Option EnvVars)
    (tool_name input_path output_path pH_value : String) (cfg : Option String)
    (t? : Option Nat) (w : World)
    (h1 : tool_name ≠ "MGLTools") (h2 : tool_name ≠ "OpenBabel")
    (h3 : tool_name ≠ "MolProbity") (h4 : tool_name ≠ "PDB2PQR")
    (hin : w.files.contains (absPath w.cwd input_path) = true) :
    run_program ex envOf tool_name input_path output_path pH_value cfg t? w
      = (Except.error Err.valueError, w) := by
  have hin' : absPath w.cwd input_path ∈ w.files := by simpa using hin
  simp [run_program, _check_if_file_exists, run_program_main, construct_shell_command,
    hin', h1, h2, h3, h4]

/-- C7 witness: the tool name `FooTool` on an existing input. -/
theorem C7_unsupported_tool_witness :
    (("FooTool" : String) ≠ "MGLTools" ∧ ("FooTool" : String) ≠ "OpenBabel"
      ∧ ("FooTool" : String) ≠ "MolProbity" ∧ ("FooTool" : String) ≠ "PDB2PQR"
      ∧ wFoo.files.contains (absPath wFoo.cwd "/w/in.foo") = true)
    ∧ run_program exRecord envOfA "FooTool" "/w/in.foo" "/w/out.pdb"
        "7.4" none none wFoo = (Except.error Err.valueError, wFoo) :=
  ⟨⟨by decide, by decide, by decide, by decide, by decide⟩,
    C7_unsupported_tool exRecord envOfA "FooTool" "/w/in.foo" "/w/out.pdb" "7.4"
      none none wFoo (by decide) (by decide) (by decide) (by decide) (by decide)⟩

/-- C5: on every exit path of the subprocess executor — normal return,
non-zero exit, timeout, or an exception raised while rebuilding the
MGLTools command — the working directory of the resulting world equals the
working directory before the call. -/
theorem C5_cwd_restored (ex : Exec) (envOf : String → Option EnvVars)
    (tool_name command absIn absOut : String) (cfg : Option String)
    (t? : Option Nat) (w : World) :
    (_run_subprocess_command ex envOf tool_name command absIn absOut cfg t? w).2.cwd
      = w.cwd := by
  unfold _run_subprocess_command runExecCore
  dsimp only
  repeat' split
  all_goals rfl

/-- With a parsed configuration and both MGLTools scripts on disk, the
MGLTools branch of `construct_shell_command` always produces a command. -/
theorem construct_mgl_isOk (envOf : String → Option EnvVars) (w : World)
    (inp outp pH : String) (cp : String) (ev : EnvVars)
    (hcp : envOf cp = some ev)
    (hpy : w.files.contains (pyJoin ev.MGL_BIN "pythonsh") = true)
    (hsc : w.files.contains (pyJoin (pyJoin (pyJoin ev.MGL_PACKAGES "AutoDockTools")
        "Utilities24") "prepare_receptor4.py") = true) :
    ∃ s, construct_shell_command envOf w "MGLTools" inp outp pH (some cp)
      = Except.ok (some s) := by
  unfold construct_shell_command get_env_vars _check_if_file_exists
  rw [if_pos rfl]
  simp only [hcp]
  rw [if_pos hpy, if_pos hsc]
  dsimp only
  split
  · exact ⟨_, rfl⟩
  · exact ⟨_, rfl⟩

/-- C4: on a non-zero exit status the executor reports success exactly when
the tool is MolProbity and the expected output file exists afterwards, and
raises the process error otherwise; for MGLTools (whose command is rebuilt
from a valid configuration first) a non-zero exit is likewise an error. -/
theorem C4_molprobity_leniency (files2 : List String)
    (envOf : String → Option EnvVars) (tool_name command absIn absOut : String)
    (cfg : Option String) (t? : Option Nat) (w : World) :
    (tool_name ≠ "MGLTools" →
      (_run_subprocess_command (fun _ _ _ => (ProcStatus.exitNonzero, files2)) envOf
          tool_name command absIn absOut cfg t? w).1
        = if tool_name = "MolProbity" ∧ absOut ∈ files2 then Except.ok true
          else Except.error Err.calledProcessError)
    ∧ (∀ (ev : EnvVars) (cp : String),
        envOf cp = some ev →
        w.files.contains (pyJoin ev.MGL_BIN "pythonsh") = true →
        w.files.contains (pyJoin (pyJoin (pyJoin ev.MGL_PACKAGES "AutoDockTools")
            "Utilities24") "prepare_receptor4.py") = true →
        (_run_subprocess_command (fun _ _ _ => (ProcStatus.exitNonzero, files2)) envOf
            "MGLTools" command absIn absOut (some cp) t? w).1
          = Except.error Err.calledProcessError) := by
  constructor
  · intro hm
    unfold _run_subprocess_command runExecCore
    rw [if_neg hm]
    dsimp only
    by_cases hmp : tool_name = "MolProbity" <;> by_cases hc : absOut ∈ files2 <;>
      simp [hmp, hc]
  · intro ev cp hcp hpy hsc
    have hnMP : ¬ (("MGLTools" : String) = "MolProbity") := by decide
    unfold _run_subprocess_command runExecCore
    rw [if_pos rfl]
    dsimp only
    have hpy1 : (if pyDirname absIn ≠ "" then { files := w.files, cwd := pyDirname absIn }
        else w).files.contains (pyJoin ev.MGL_BIN "pythonsh") = true := by
      split
      · exact hpy
      · exact hpy
    have hsc1 : (if pyDirname absIn ≠ "" then { files := w.files, cwd := pyDirname absIn }
        else w).files.contains (pyJoin (pyJoin (pyJoin ev.MGL_PACKAGES "AutoDockTools")
          "Utilities24") "prepare_receptor4.py") = true := by
      split
      · exact hsc
      · exact hsc
    obtain ⟨s, hs⟩ := construct_mgl_isOk envOf _ (pyBasename absIn) (pyBasename absOut)
      "7.4" cp ev hcp hpy1 hsc1
    rw [hs]
    simp [hnMP]

/-- C4 witness: the leniency test at a non-MGLTools tool and the MGLTools
strictness at a concrete valid configuration. -/
theorem C4_molprobity_leniency_witness :
    (("OpenBabel" : String) ≠ "MGLTools"
      ∧ (_run_subprocess_command (fun _ _ _ => (ProcStatus.exitNonzero, (["/o"] : List String)))
          envOfA "OpenBabel" "cmd" "/d/in.pqr" "/o" none none wPqr).1
        = if ("OpenBabel" : String) = "MolProbity"
              ∧ ("/o" : String) ∈ (["/o"] : List String)
          then Except.ok true else Except.error Err.calledProcessError)
    ∧ (envOfA "/cfg.json" = some evA
      ∧ wPqr.files.contains (pyJoin evA.MGL_BIN "pythonsh") = true
      ∧ wPqr.files.contains (pyJoin (pyJoin (pyJoin evA.MGL_PACKAGES "AutoDockTools")
          "Utilities24") "prepare_receptor4.py") = true
      ∧ (_run_subprocess_command (fun _ _ _ => (ProcStatus.exitNonzero, (["/o"] : List String)))
          envOfA "MGLTools" "cmd" "/d/in.pqr" "/o" (some "/cfg.json") none wPqr).1
        = Except.error Err.calledProcessError) :=
  ⟨⟨by decide,
    (C4_molprobity_leniency ["/o"] envOfA "OpenBabel" "cmd" "/d/in.pqr" "/o"
      none none wPqr).1 (by decide)⟩,
   rfl, rfl, rfl,
    (C4_molprobity_leniency ["/o"] envOfA "OpenBabel" "cmd" "/d/in.pqr" "/o"
      none none wPqr).2 evA "/cfg.json" rfl rfl rfl⟩

/-- C1 counterexample: an MGLTools/pqr run whose pre-conversion creates the
temporary PDB and whose main invocation exits non-zero raises the process
error, and the temporary file still exists after the call — the cleanup is
skipped on the exception path. -/
theorem C1_counterexample :
    (run_program exMainFails envOfA "MGLTools" "/d/in.pqr" "/d/out.pdbqt" "7.4"
        (some "/cfg.json") none wPqr).1 = Except.error Err.calledProcessError
    ∧ (run_program exMainFails envOfA "MGLTools" "/d/in.pqr" "/d/out.pdbqt" "7.4"
        (some "/cfg.json") none wPqr).2.files.contains "/d/in_temp.pdb" = true := by
  exact ⟨rfl, rfl⟩

/-- When the main phase returns normally for an MGLTools/pqr call, the
temporary file named for cleanup is gone from the resulting world. -/
theorem run_program_main_cleanup (ex : Exec) (envOf : String → Option EnvVars)
    (absIn absOut temp pH : String) (cfg : Option String) (t? : Option Nat)
    (w : World) (b : Bool)
    (hret : (run_program_main ex envOf "MGLTools" absIn absOut "pqr" temp pH cfg
        t? w).1 = Except.ok b) :
    (run_program_main ex envOf "MGLTools" absIn absOut "pqr" temp pH cfg
        t? w).2.files.contains temp = false := by
  revert hret
  unfold run_program_main
  cases hcs : construct_shell_command envOf w "MGLTools" absIn absOut pH cfg with
  | error e => intro hret; simp at hret
  | ok o =>
    cases o with
    | none => intro hret; simp at hret
    | some cmd =>
      dsimp only
      by_cases hemp : cmd = ""
      · rw [if_pos hemp]
        intro hret; simp at hret
      · rw [if_neg hemp]
        rcases hrun : _run_subprocess_command ex envOf "MGLTools" cmd absIn absOut
            cfg t? w with ⟨res, w2⟩
        cases res with
        | error e => intro hret; simp at hret
        | ok s =>
          dsimp only
          intro hret
          split
          · dsimp only
            exact contains_filter_ne _ _
          · rename_i hcond
            dsimp only
            cases hw : w2.files.contains temp with
            | false => rfl
            | true =>
              exact absurd (by rw [hw]; decide) hcond

/-- Control-flow shape of an MGLTools/pqr `run_program` call: it either
raises before the main phase or reduces to `run_program_main` on some
effective input and world, always with the pqr extension and the original
temporary-file path. -/
theorem run_program_mgl_pqr_shape (ex : Exec) (envOf : String → Option EnvVars)
    (inp outp pH : String) (cfg : Option String) (t? : Option Nat) (w : World)
    (hext : extNoDot (absPath w.cwd inp) = "pqr") :
    run_program ex envOf "MGLTools" inp outp pH cfg t? w
      = (Except.error Err.inputFileNotFound, w)
    ∨ ∃ X W, run_program ex envOf "MGLTools" inp outp pH cfg t? w
        = run_program_main ex envOf "MGLTools" X (absPath w.cwd outp) "pqr"
            (pyReplace (absPath w.cwd inp) ".pqr" "_temp.pdb") pH cfg t? W := by
  unfold run_program
  dsimp only
  cases hchk : _check_if_file_exists w (absPath w.cwd inp) with
  | error e =>
    have he : e = Err.inputFileNotFound := by
      unfold _check_if_file_exists at hchk
      split at hchk
      · cases hchk
      · cases hchk
        rfl
    subst he
    left
    rfl
  | ok a =>
    dsimp only
    have hcond : (decide (("MGLTools" : String) = "MGLTools")
        && decide (extNoDot (absPath w.cwd inp) = "pqr")) = true := by
      rw [hext]; decide
    rw [if_pos hcond]
    rw [hext]
    rcases hx : ex ("obabel -ipqr " ++ absPath w.cwd inp ++ " -opdb -O "
        ++ pyReplace (absPath w.cwd inp) ".pqr" "_temp.pdb") none w with ⟨st, fs⟩
    cases st with
    | exitZero =>
      dsimp only
      split
      · exact Or.inr ⟨_, _, rfl⟩
      · exact Or.inr ⟨_, _, rfl⟩
    | exitNonzero => exact Or.inr ⟨_, _, rfl⟩
    | timedOut => exact Or.inr ⟨_, _, rfl⟩

/-- C1 (amended): for an MGLTools call on a pqr input, whenever
`run_program` returns normally (success or failure boolean), the temporary
PDB file does not exist afterwards; when the main invocation raises, the
cleanup is skipped and the temporary file can remain. -/
theorem C1_amended_cleanup_on_normal_return (ex : Exec)
    (envOf : String → Option EnvVars) (inp outp pH : String) (cfg : Option String)
    (t? : Option Nat) (w : World) (b : Bool)
    (hext : extNoDot (absPath w.cwd inp) = "pqr")
    (hret : (run_program ex envOf "MGLTools" inp outp pH cfg t? w).1 = Except.ok b) :
    (run_program ex envOf "MGLTools" inp outp pH cfg t? w).2.files.contains
      (pyReplace (absPath w.cwd inp) ".pqr" "_temp.pdb") = false := by
  rcases run_program_mgl_pqr_shape ex envOf inp outp pH cfg t? w hext with he | ⟨X, W, hW⟩
  · rw [he] at hret; simp at hret
  · rw [hW] at hret ⊢
    exact run_program_main_cleanup ex envOf X (absPath w.cwd outp) _ pH cfg t? W b hret

/-- C1 witness for the amended statement: with an oracle where both the
pre-conversion and the main invocation succeed, the call returns success
and the temporary PDB file is gone. -/
theorem C1_amended_cleanup_witness :
    extNoDot (absPath wPqr.cwd "/d/in.pqr") = "pqr"
    ∧ (run_program exAllOk envOfA "MGLTools" "/d/in.pqr" "/d/out.pdbqt" "7.4"
        (some "/cfg.json") none wPqr).1 = Except.ok true
    ∧ (run_program exAllOk envOfA "MGLTools" "/d/in.pqr" "/d/out.pdbqt" "7.4"
        (some "/cfg.json") none wPqr).2.files.contains
        (pyReplace (absPath wPqr.cwd "/d/in.pqr") ".pqr" "_temp.pdb") = false :=
  ⟨rfl, rfl,
    C1_amended_cleanup_on_normal_return exAllOk envOfA "/d/in.pqr" "/d/out.pdbqt"
      "7.4" (some "/cfg.json") none wPqr true rfl rfl⟩

/-- C10: when the MGLTools/pqr pre-conversion fails — the converter process
does not exit zero, or exits zero without creating the temporary PDB — no
error is raised for the pre-conversion: the call continues into the main
phase with the original PQR absolute path as the effective input for
command construction and execution. -/
theorem C10_preconv_failure_proceeds (ex : Exec) (envOf : String → Option EnvVars)
    (inp outp pH : String) (cfg : Option String) (t? : Option Nat) (w : World)
    (st : ProcStatus) (fs : List String)
    (hin : w.files.contains (absPath w.cwd inp) = true)
    (hext : extNoDot (absPath w.cwd inp) = "pqr")
    (hex : ex ("obabel -ipqr " ++ absPath w.cwd inp ++ " -opdb -O "
        ++ pyReplace (absPath w.cwd inp) ".pqr" "_temp.pdb") none w = (st, fs))
    (hfail : st = ProcStatus.exitZero →
        fs.contains (pyReplace (absPath w.cwd inp) ".pqr" "_temp.pdb") = false) :
    run_program ex envOf "MGLTools" inp outp pH cfg t? w
      = run_program_main ex envOf "MGLTools" (absPath w.cwd inp) (absPath w.cwd outp)
          "pqr" (pyReplace (absPath w.cwd inp) ".pqr" "_temp.pdb") pH cfg t?
          { files := fs, cwd := w.cwd } := by
  unfold run_program _check_if_file_exists
  dsimp only
  rw [if_pos hin]
  dsimp only
  have hcond : (decide (("MGLTools" : String) = "MGLTools")
      && decide (extNoDot (absPath w.cwd inp) = "pqr")) = true := by
    rw [hext]; decide
  rw [if_pos hcond, hex, hext]
  dsimp only
  cases st with
  | exitZero =>
    have hnc : ¬ (fs.contains (pyReplace (absPath w.cwd inp) ".pqr" "_temp.pdb") = true) := by
      rw [hfail rfl]
      simp
    rw [if_neg hnc]
  | exitNonzero => rfl
  | timedOut => rfl

/-- C10 witness: the pre-conversion exits non-zero and the call proceeds
with the original PQR path. -/
theorem C10_preconv_failure_witness :
    wPqr.files.contains (absPath wPqr.cwd "/d/in.pqr") = true
    ∧ extNoDot (absPath wPqr.cwd "/d/in.pqr") = "pqr"
    ∧ exPreFails ("obabel -ipqr " ++ absPath wPqr.cwd "/d/in.pqr" ++ " -opdb -O "
        ++ pyReplace (absPath wPqr.cwd "/d/in.pqr") ".pqr" "_temp.pdb") none wPqr
      = (ProcStatus.exitNonzero, wPqr.files)
    ∧ run_program exPreFails envOfA "MGLTools" "/d/in.pqr" "/d/out.pdbqt" "7.4"
        (some "/cfg.json") none wPqr
      = run_program_main exPreFails envOfA "MGLTools" (absPath wPqr.cwd "/d/in.pqr")
          (absPath wPqr.cwd "/d/out.pdbqt") "pqr"
          (pyReplace (absPath wPqr.cwd "/d/in.pqr") ".pqr" "_temp.pdb") "7.4"
          (some "/cfg.json") none { files := wPqr.files, cwd := wPqr.cwd } :=
  ⟨rfl, rfl, rfl,
    C10_preconv_failure_proceeds exPreFails envOfA "/d/in.pqr" "/d/out.pdbqt" "7.4"
      (some "/cfg.json") none wPqr ProcStatus.exitNonzero wPqr.files rfl rfl rfl
      (fun h => nomatch h)⟩

end DockPrep
